import Mathlib

/-!
Shallow embedding of the ZapDine repository's behavioural core:
the loyalty-point SQL functions and triggers, the default staff-role
seeding trigger, the two e-mail edge-function handlers, and the
client-side authentication service. Numeric SQL columns are modelled
as `ℚ`, integer columns as `ℤ`, nullable columns as `Option`, and SQL
text as `String`.
-/

/-- A row of the `loyalty_programs` table, restricted to the columns read
by `calculate_loyalty_points`. `points_per_dollar` is nullable in the
schema (`numeric(5,2) DEFAULT 1.00`, no NOT NULL). -/
structure LoyaltyProgram where
  restaurant_id : ℕ
  points_per_dollar : Option ℚ
  is_active : Bool
deriving DecidableEq

/-- Embedding of the plpgsql function `calculate_loyalty_points`:
`SELECT lp.points_per_dollar INTO points_per_dollar FROM loyalty_programs lp
WHERE lp.restaurant_id = restaurant_uuid AND lp.is_active = true LIMIT 1`,
then `IF points_per_dollar IS NULL THEN points_per_dollar := 1.0`,
then `RETURN FLOOR(order_total * points_per_dollar)`. -/
def calculate_loyalty_points (order_total : ℚ) (restaurant_uuid : ℕ)
    (lps : List LoyaltyProgram) : ℤ :=
  let selected :=
    (lps.filter (fun lp => lp.restaurant_id == restaurant_uuid && lp.is_active)).head?
  let points_per_dollar : Option ℚ :=
    match selected with
    | none => none
    | some lp => lp.points_per_dollar
  let rate : ℚ :=
    match points_per_dollar with
    | none => 1
    | some r => r
  Rat.floor (order_total * rate)

/-- A row of the `orders` table, restricted to the columns read by the
post-order trigger. `loyalty_points_earned` and `loyalty_points_used`
are nullable integer columns. -/
structure Order where
  id : ℕ
  restaurant_id : ℕ
  customer_profile_id : Option ℕ
  status : String
  total_amount : ℚ
  loyalty_points_earned : Option ℤ
  loyalty_points_used : Option ℤ
deriving DecidableEq

/-- A row of the `customer_profiles` table, restricted to the aggregate
counters mutated by the post-order trigger. -/
structure CustomerProfile where
  id : ℕ
  total_visits : ℤ
  total_spent : ℚ
  loyalty_points : ℤ
deriving DecidableEq

/-- SQL `COALESCE(x, 0)` on a nullable integer column. -/
def coalesceZ : Option ℤ → ℤ
  | none => 0
  | some v => v

/-- The row-level effect of the trigger's
`UPDATE customer_profiles SET total_visits = total_visits + 1,
total_spent = total_spent + NEW.total_amount, loyalty_points =
loyalty_points + COALESCE(NEW.loyalty_points_earned, 0) -
COALESCE(NEW.loyalty_points_used, 0) WHERE id = NEW.customer_profile_id`
on one `customer_profiles` row. A row whose `id` does not match the
(possibly NULL) `customer_profile_id` is untouched. -/
def applyOrderToProfile (newRow : Order) (p : CustomerProfile) : CustomerProfile :=
  if some p.id = newRow.customer_profile_id then
    { p with
      total_visits := p.total_visits + 1
      total_spent := p.total_spent + newRow.total_amount
      loyalty_points := p.loyalty_points + coalesceZ newRow.loyalty_points_earned
        - coalesceZ newRow.loyalty_points_used }
  else p

/-- Embedding of the trigger function `update_customer_profile_after_order`
(fired `AFTER UPDATE ON orders FOR EACH ROW`): when
`NEW.status = 'served' AND OLD.status != 'served'` it runs the profile
`UPDATE` over the `customer_profiles` table, and it always returns `NEW`. -/
def update_customer_profile_after_order (oldRow newRow : Order)
    (profiles : List CustomerProfile) : Order × List CustomerProfile :=
  if newRow.status = "served" ∧ oldRow.status ≠ "served" then
    (newRow, profiles.map (applyOrderToProfile newRow))
  else
    (newRow, profiles)

/-- Replay of a sequence of status updates on one order: starting from
status `prev`, each element of `seq` is the order's next saved status and
fires the `AFTER UPDATE` trigger once. -/
def runStatusUpdates (o : Order) : String → List String → List CustomerProfile → List CustomerProfile
  | _, [], ps => ps
  | prev, s :: rest, ps =>
      runStatusUpdates o s rest
        (update_customer_profile_after_order { o with status := prev } { o with status := s } ps).2

/-- Number of steps of a status trajectory on which the trigger guard
`NEW.status = 'served' AND OLD.status != 'served'` holds. -/
def servedEntryCount : String → List String → ℕ
  | _, [] => 0
  | prev, s :: rest =>
      (if s = "served" ∧ prev ≠ "served" then 1 else 0) + servedEntryCount s rest

/-- A status trajectory never transitions out of `'served'`: once the
status is `'served'`, every later saved status is again `'served'`. -/
def noServedExit : String → List String → Bool
  | _, [] => true
  | prev, s :: rest => (prev != "served" || s == "served") && noServedExit s rest

/-- A row of the `staff_roles` table as inserted by the seeding function:
`(restaurant_id, name, description, permissions, hourly_rate)`. The JSON
permission object is modelled as an association list of flags. -/
structure StaffRole where
  restaurant_id : ℕ
  name : String
  description : String
  permissions : List (String × Bool)
  hourly_rate : ℚ
deriving DecidableEq

/-- Embedding of the plpgsql function `create_default_staff_roles`: the
four `INSERT INTO staff_roles` rows, in source order, with the hardcoded
names, descriptions, permission flags and hourly rates. -/
def create_default_staff_roles (restaurant_uuid : ℕ) : List StaffRole :=
  [ { restaurant_id := restaurant_uuid
      name := "Manager"
      description := "Restaurant manager with full access"
      permissions := [("manage_staff", true), ("manage_menu", true), ("view_reports", true),
        ("manage_inventory", true), ("process_orders", true)]
      hourly_rate := 25 },
    { restaurant_id := restaurant_uuid
      name := "Waiter"
      description := "Front-of-house staff serving customers"
      permissions := [("process_orders", true), ("view_menu", true), ("update_order_status", true)]
      hourly_rate := 15 },
    { restaurant_id := restaurant_uuid
      name := "Chef"
      description := "Kitchen staff preparing food"
      permissions := [("view_orders", true), ("update_order_status", true),
        ("manage_inventory", true)]
      hourly_rate := 20 },
    { restaurant_id := restaurant_uuid
      name := "Cashier"
      description := "Handle payments and customer service"
      permissions := [("process_orders", true), ("view_reports", true),
        ("handle_payments", true)]
      hourly_rate := 14 } ]

/-- The slice of database state touched by restaurant creation:
the restaurants (by id) and the `staff_roles` table. -/
structure RestaurantDB where
  restaurants : List ℕ
  staff_roles : List StaffRole
deriving DecidableEq

/-- Inserting a restaurant row fires the `AFTER INSERT` trigger
`on_restaurant_created_add_roles`, whose function `add_default_staff_roles`
runs `PERFORM create_default_staff_roles(NEW.id)`, appending the four
default role rows. -/
def insert_restaurant (rid : ℕ) (db : RestaurantDB) : RestaurantDB :=
  { restaurants := db.restaurants ++ [rid]
    staff_roles := db.staff_roles ++ create_default_staff_roles rid }

/-- The environment and dependency outcomes an e-mail edge-function run
can observe: configured secrets, whether the payload is valid JSON,
whether the dynamic imports succeed, whether the webhook signature
verifies, and whether the provider accepts the send. `unexpectedError`
stands for any other exception caught by the outer try/catch. -/
structure EmailEnv where
  resendApiKey : Option String
  hookSecret : Option String
  payloadParses : Bool
  importsOk : Bool
  signatureValid : Bool
  sendOk : Bool
  unexpectedError : Bool
deriving DecidableEq

/-- The JSON body `{ success, message }` the handlers serialize. -/
structure JsonBody where
  success : Bool
  message : Option String
deriving DecidableEq

/-- An HTTP response as built by the handlers: a status code and an
optional JSON body (the CORS preflight answer has none). -/
structure HttpResponse where
  status : ℕ
  body : Option JsonBody
deriving DecidableEq

/-- A 200 response whose JSON body is `{ success: true, message }`. -/
def okResponse (msg : Option String) : HttpResponse :=
  { status := 200, body := some { success := true, message := msg } }

namespace SendVerificationEmail

/-- Embedding of the `send-verification-email` handler: the CORS
preflight short-circuit, then each failure branch in source order, each
returning status 200 with `success: true` and the source's message. -/
def handler (method : String) (env : EmailEnv) : HttpResponse :=
  if method = "OPTIONS" then { status := 200, body := none }
  else if env.unexpectedError then
    okResponse (some "Signup completed - email verification skipped due to configuration issue")
  else if !env.payloadParses then
    okResponse (some "Signup completed - email verification skipped due to payload parsing issue")
  else if env.resendApiKey = none ∨ env.hookSecret = none then
    okResponse (some "Email service not configured - signup allowed without email verification")
  else if !env.importsOk then
    okResponse (some "Signup completed - email verification skipped due to dependency issue")
  else if !env.signatureValid then
    okResponse (some "Signup completed - email verification skipped due to webhook verification issue")
  else if !env.sendOk then
    okResponse (some "Signup completed - email verification skipped due to email sending issue")
  else okResponse none

end SendVerificationEmail

namespace SendResetEmail

/-- Embedding of the `send-reset-email` handler, with the same branch
structure as the verification handler and its own messages. -/
def handler (method : String) (env : EmailEnv) : HttpResponse :=
  if method = "OPTIONS" then { status := 200, body := none }
  else if env.unexpectedError then
    okResponse (some "Password reset completed - email sending skipped due to configuration issue")
  else if !env.payloadParses then
    okResponse (some "Password reset completed - email sending skipped due to payload parsing issue")
  else if env.resendApiKey = none ∨ env.hookSecret = none then
    okResponse (some "Email service not configured - password reset allowed without email")
  else if !env.importsOk then
    okResponse (some "Password reset completed - email sending skipped due to dependency issue")
  else if !env.signatureValid then
    okResponse (some "Password reset completed - email sending skipped due to webhook verification issue")
  else if !env.sendOk then
    okResponse (some "Password reset completed - email sending skipped due to email sending issue")
  else okResponse none

end SendResetEmail

/-- Contiguous-sublist test on character lists, used to embed
JavaScript's `String.prototype.includes`. -/
def hasSub : List Char → List Char → Bool
  | _, [] => true
  | [], _ :: _ => false
  | c :: t, sub => sub.isPrefixOf (c :: t) || hasSub t sub

/-- `occurs sub s` embeds the JavaScript test `s.includes(sub)`. -/
def occurs (sub s : String) : Bool := hasSub s.toList sub.toList

/-- Outcome of a `maybeSingle()` profile query: a query error with a
PostgREST code, no row, or a row whose selected text column may be NULL. -/
inductive LookupRes where
  | fail (code : String) (message : String)
  | notFound
  | found (value : Option String)
deriving DecidableEq

/-- The backend-as-a-service surface the auth service calls, with one
field per observable outcome: the `profiles`-by-username lookup used by
sign-in, password authentication (`none` means success, `some m` a backend
error with message `m`), the sign-up username-availability query, the
`auth.signUp` and `resetPasswordForEmail` outcomes, and the queries and
insert done by profile auto-provisioning (`ensureThrows` stands for an
exception thrown inside its try block). -/
structure AuthBackend where
  profileByUsername : String → LookupRes
  signInWithPassword : String → String → Option String
  usernameCheck : LookupRes
  signUpError : Option String
  resetError : Option String
  profileById : LookupRes
  profileInsertError : Option String
  ensureThrows : Bool

/-- The `{ message }` error object of an `AuthResult`. -/
structure AuthError where
  message : String
deriving DecidableEq

namespace AuthService

/-- The `errorMessage` mapping of the sign-up branch: substring matches
on the backend message, falling back to the raw message. -/
def mapSignUpError (m : String) : String :=
  if occurs "User already registered" m then
    "An account with this email already exists. Please try signing in instead."
  else if occurs "Password should be at least" m then
    "Password must be at least 6 characters long."
  else if occurs "Invalid email" m then
    "Please enter a valid email address."
  else m

/-- The `errorMessage` mapping of the e-mail sign-in branch: the default
is the generic invalid-credentials message, replaced on substring match. -/
def mapEmailLoginError (m : String) : String :=
  if occurs "Email not confirmed" m then
    "Please check your email and click the confirmation link before signing in."
  else if occurs "Invalid login credentials" m then
    "Invalid email or password. Please check your credentials and try again."
  else if occurs "Too many requests" m then
    "Too many login attempts. Please wait a moment before trying again."
  else "Invalid email or password. Please check your credentials and try again."

/-- The `errorMessage` mapping of the username sign-in branch. -/
def mapUsernameLoginError (m : String) : String :=
  if occurs "Email not confirmed" m then
    "Please check your email and click the confirmation link before signing in."
  else if occurs "Too many requests" m then
    "Too many login attempts. Please wait a moment before trying again."
  else "Invalid username or password. Please check your credentials and try again."

/-- The `errorMessage` mapping of `resetPassword`, falling back to the
raw message. -/
def mapResetError (m : String) : String :=
  if occurs "For security purposes" m then
    "For security purposes, you can only request a password reset every 60 seconds."
  else if occurs "Unable to validate email address" m then
    "Please enter a valid email address."
  else m

/-- The try block of `ensureProfileExists`: an early return on a real
fetch error, a profile insert whose error is only logged, or an
exception. Every non-exception path returns normally. -/
def ensureProfileBody (be : AuthBackend) : Except String Unit :=
  if be.ensureThrows then Except.error "thrown" else
  match be.profileById with
  | LookupRes.fail code _ =>
      if code ≠ "PGRST116" then Except.ok () else Except.ok ()
  | LookupRes.found _ => Except.ok ()
  | LookupRes.notFound =>
      match be.profileInsertError with
      | some _ => Except.ok ()
      | none => Except.ok ()

/-- `ensureProfileExists` wraps its body in try/catch: every error is
swallowed and the method returns void. -/
def ensureProfileExists (be : AuthBackend) : Unit :=
  match ensureProfileBody be with
  | Except.ok _ => ()
  | Except.error _ => ()

/-- Embedding of `AuthService.signUp`: the username-availability check,
then `supabase.auth.signUp`, mapping any backend error message through
`mapSignUpError`. `none` is the `{ error: null }` success result. -/
def signUp (be : AuthBackend) : Option AuthError :=
  match be.usernameCheck with
  | LookupRes.fail code _ =>
      if code ≠ "PGRST116" then
        some ⟨"Error checking username availability. Please try again."⟩
      else
        match be.signUpError with
        | some m => some ⟨mapSignUpError m⟩
        | none => none
  | LookupRes.found _ =>
      some ⟨"Username already exists. Please choose a different username."⟩
  | LookupRes.notFound =>
      match be.signUpError with
      | some m => some ⟨mapSignUpError m⟩
      | none => none

/-- Embedding of `AuthService.signIn`. An identifier containing `'@'`
goes to the e-mail branch; otherwise the username is resolved to an
e-mail through the `profiles` table first. On authentication success the
result is `{ error: null }` after `ensureProfileExists` runs. -/
def signIn (identifier password : String) (be : AuthBackend) : Option AuthError :=
  if identifier.toList.contains '@' then
    match be.signInWithPassword identifier password with
    | some m => some ⟨mapEmailLoginError m⟩
    | none =>
        let _ := ensureProfileExists be
        none
  else
    match be.profileByUsername identifier with
    | LookupRes.fail code _ =>
        if code ≠ "PGRST116" then
          some ⟨"An error occurred while looking up your username. Please try again."⟩
        else
          some ⟨"Invalid username or password. Please check your credentials and try again."⟩
    | LookupRes.notFound =>
        some ⟨"Invalid username or password. Please check your credentials and try again."⟩
    | LookupRes.found none =>
        some ⟨"Invalid username or password. Please check your credentials and try again."⟩
    | LookupRes.found (some em) =>
        match be.signInWithPassword em password with
        | some m => some ⟨mapUsernameLoginError m⟩
        | none =>
            let _ := ensureProfileExists be
            none

/-- Embedding of `AuthService.resetPassword`, mapping any backend error
message through `mapResetError`. -/
def resetPassword (be : AuthBackend) : Option AuthError :=
  match be.resetError with
  | some m => some ⟨mapResetError m⟩
  | none => none

end AuthService

/-- SQL `COALESCE(x, 0)` agrees with `Option.getD`. -/
theorem coalesceZ_eq_getD (x : Option ℤ) : coalesceZ x = x.getD 0 := by
  cases x <;> rfl

/-- Claim C1: when an order is saved with status `'served'` and its
previous status was not `'served'`, the trigger runs the profile update,
which adds exactly 1 to `total_visits`, the order's `total_amount` to
`total_spent`, and `loyalty_points_earned - loyalty_points_used` (each
NULL defaulting to 0) to `loyalty_points` of every profile row whose id
is the order's `customer_profile_id`, leaves every other row unchanged,
and a further save while the previous status is already `'served'`
leaves the table unchanged. -/
theorem trigger_served_transition_updates_profile
    (oldRow newRow : Order) (profiles : List CustomerProfile) (cid : ℕ)
    (hc : newRow.customer_profile_id = some cid)
    (hex : ∃ p ∈ profiles, p.id = cid)
    (hnew : newRow.status = "served") (hold : oldRow.status ≠ "served") :
    (update_customer_profile_after_order oldRow newRow profiles).2 =
        profiles.map (applyOrderToProfile newRow)
    ∧ (∀ p : CustomerProfile, p.id = cid →
        (applyOrderToProfile newRow p).total_visits = p.total_visits + 1
        ∧ (applyOrderToProfile newRow p).total_spent = p.total_spent + newRow.total_amount
        ∧ (applyOrderToProfile newRow p).loyalty_points = p.loyalty_points +
            (newRow.loyalty_points_earned.getD 0 - newRow.loyalty_points_used.getD 0))
    ∧ (∀ p : CustomerProfile, p.id ≠ cid → applyOrderToProfile newRow p = p)
    ∧ (∀ prev : Order, prev.status = "served" →
        update_customer_profile_after_order prev newRow profiles = (newRow, profiles)) := by
  refine ⟨?_, ?_, ?_, ?_⟩
  · simp [update_customer_profile_after_order, hnew, hold]
  · intro p hp
    refine ⟨?_, ?_, ?_⟩ <;> (simp [applyOrderToProfile, hc, hp, coalesceZ_eq_getD]; try omega)
  · intro p hp
    simp [applyOrderToProfile, hc, hp]
  · intro prev hprev
    simp [update_customer_profile_after_order, hprev]

/-- Witness for C1 at a concrete order, transition and profile table. -/
theorem trigger_served_transition_updates_profile_inst :
    (update_customer_profile_after_order
        ⟨5, 2, some 9, "ready", 30, some 35, some 10⟩
        ⟨5, 2, some 9, "served", 30, some 35, some 10⟩
        [⟨9, 4, 100, 50⟩]).2 =
      [⟨9, 4, 100, 50⟩].map (applyOrderToProfile ⟨5, 2, some 9, "served", 30, some 35, some 10⟩) :=
  (trigger_served_transition_updates_profile
    ⟨5, 2, some 9, "ready", 30, some 35, some 10⟩
    ⟨5, 2, some 9, "served", 30, some 35, some 10⟩
    [⟨9, 4, 100, 50⟩] 9 rfl ⟨⟨9, 4, 100, 50⟩, by simp, rfl⟩ rfl (by decide)).1

/-- Claim C2: `calculate_loyalty_points` returns the floor of the order
total times the rate of the restaurant's first active loyalty program,
defaulting to 1.0 when none is configured; in particular 50 with no
program yields 50, 50 at rate 2.0 yields 100, and 49.9 at rate 1 yields
49. -/
theorem calculate_loyalty_points_spec :
    (∀ (t : ℚ) (r : ℕ) (lps : List LoyaltyProgram) (lp : LoyaltyProgram) (rate : ℚ),
      (lps.filter (fun q => q.restaurant_id == r && q.is_active)).head? = some lp →
      lp.points_per_dollar = some rate →
      calculate_loyalty_points t r lps = Rat.floor (t * rate))
    ∧ (∀ (t : ℚ) (r : ℕ) (lps : List LoyaltyProgram),
        lps.filter (fun q => q.restaurant_id == r && q.is_active) = [] →
        calculate_loyalty_points t r lps = Rat.floor t)
    ∧ (∀ r : ℕ, calculate_loyalty_points 50 r [] = 50)
    ∧ calculate_loyalty_points 50 7 [⟨7, some 2, true⟩] = 100
    ∧ calculate_loyalty_points (49.9 : ℚ) 7 [⟨7, some 1, true⟩] = 49 := by
  refine ⟨?_, ?_, ?_, ?_, ?_⟩
  · intro t r lps lp rate hhead hrate
    simp [calculate_loyalty_points, hhead, hrate]
  · intro t r lps hfilter
    simp [calculate_loyalty_points, hfilter]
  · intro r
    norm_num [calculate_loyalty_points, Rat.floor_def']
  · norm_num [calculate_loyalty_points, Rat.floor_def']
  · norm_num [calculate_loyalty_points, Rat.floor_def']

/-- Claim C7: when the saved order has no linked customer profile
(`customer_profile_id` NULL, or no `customer_profiles` row with that
id), the trigger changes no profile row and still returns `NEW`, so the
order update succeeds. -/
theorem trigger_no_profile_noop
    (oldRow newRow : Order) (profiles : List CustomerProfile)
    (h : newRow.customer_profile_id = none
      ∨ ∀ p ∈ profiles, some p.id ≠ newRow.customer_profile_id) :
    update_customer_profile_after_order oldRow newRow profiles = (newRow, profiles) := by
  have hfix : ∀ p ∈ profiles, applyOrderToProfile newRow p = p := by
    intro p hp
    rcases h with hnone | hno
    · simp [applyOrderToProfile, hnone]
    · simp [applyOrderToProfile, hno p hp]
  unfold update_customer_profile_after_order
  split
  · simp only [List.map_congr_left hfix, List.map_id']
  · rfl

/-- Witness for C7: serving an order whose `customer_profile_id` is NULL
leaves the profile table unchanged. -/
theorem trigger_no_profile_noop_inst :
    update_customer_profile_after_order
        ⟨5, 2, none, "ready", 30, none, none⟩
        ⟨5, 2, none, "served", 30, none, none⟩
        [⟨9, 4, 100, 50⟩] =
      (⟨5, 2, none, "served", 30, none, none⟩, [⟨9, 4, 100, 50⟩]) :=
  trigger_no_profile_noop _ _ _ (Or.inl rfl)

/-- Claim C8, counterexample: a negative order total makes
`calculate_loyalty_points` return a negative integer, so the result is
not a non-negative integer for every total. -/
theorem calculate_loyalty_points_negative_total :
    calculate_loyalty_points (-1) 0 [] = -1 ∧ calculate_loyalty_points (-1) 0 [] < 0 := by
  constructor <;> norm_num [calculate_loyalty_points, Rat.floor_def']

/-- Claim C8 as amended: for every non-negative order total, provided
every configured `points_per_dollar` value is non-negative, the result
is a non-negative integer, and the absence of an active program is not a
failure: it yields the default rate 1.0. -/
theorem calculate_loyalty_points_nonneg
    (t : ℚ) (r : ℕ) (lps : List LoyaltyProgram)
    (ht : 0 ≤ t)
    (hr : ∀ lp ∈ lps, ∀ rate : ℚ, lp.points_per_dollar = some rate → 0 ≤ rate) :
    0 ≤ calculate_loyalty_points t r lps
    ∧ (lps.filter (fun q => q.restaurant_id == r && q.is_active) = [] →
        calculate_loyalty_points t r lps = Rat.floor t) := by
  constructor
  · unfold calculate_loyalty_points
    cases hhead : (lps.filter (fun lp => lp.restaurant_id == r && lp.is_active)).head? with
    | none =>
        simp only [hhead, mul_one]
        exact Rat.le_floor.mpr (by exact_mod_cast ht)
    | some lp =>
        have hmem : lp ∈ lps :=
          List.mem_of_mem_filter (List.mem_of_mem_head? (Option.mem_def.mpr hhead))
        cases hppd : lp.points_per_dollar with
        | none =>
            simp only [hhead, hppd, mul_one]
            exact Rat.le_floor.mpr (by exact_mod_cast ht)
        | some rate =>
            simp only [hhead, hppd]
            have hrate : 0 ≤ rate := hr lp hmem rate hppd
            exact Rat.le_floor.mpr (by push_cast; exact mul_nonneg ht hrate)
  · intro hfilter
    simp [calculate_loyalty_points, hfilter]

/-- Witness for the amended C8 at total 0 with no configured program. -/
theorem calculate_loyalty_points_nonneg_inst :
    0 ≤ calculate_loyalty_points 0 3 []
    ∧ (([] : List LoyaltyProgram).filter (fun q => q.restaurant_id == 3 && q.is_active) = [] →
        calculate_loyalty_points 0 3 [] = Rat.floor 0) :=
  calculate_loyalty_points_nonneg 0 3 [] (le_refl 0) (by simp)

/-- A trajectory that starts at `'served'` and never exits `'served'`
fires the trigger guard zero times. -/
theorem servedEntryCount_zero_of_served :
    ∀ (seq : List String) (prev : String), prev = "served" →
      noServedExit prev seq = true → servedEntryCount prev seq = 0 := by
  intro seq
  induction seq with
  | nil => intro prev _ _; rfl
  | cons s rest ih =>
      intro prev hprev hne
      subst hprev
      simp only [noServedExit, Bool.and_eq_true, Bool.or_eq_true, bne_iff_ne,
        beq_iff_eq] at hne
      have hs : s = "served" := by
        rcases hne.1 with h | h
        · exact absurd rfl h
        · exact h
      subst hs
      simp only [servedEntryCount]
      rw [if_neg (by simp), ih "served" rfl hne.2]

/-- A trajectory that never exits `'served'` fires the trigger guard at
most once. -/
theorem servedEntryCount_le_one :
    ∀ (seq : List String) (prev : String),
      noServedExit prev seq = true → servedEntryCount prev seq ≤ 1 := by
  intro seq
  induction seq with
  | nil => intro prev _; exact Nat.zero_le 1
  | cons s rest ih =>
      intro prev hne
      simp only [noServedExit, Bool.and_eq_true] at hne
      by_cases hfire : s = "served" ∧ prev ≠ "served"
      · simp only [servedEntryCount, if_pos hfire]
        have : servedEntryCount s rest = 0 :=
          servedEntryCount_zero_of_served rest s hfire.1 hne.2
        omega
      · simp only [servedEntryCount, if_neg hfire]
        have := ih s hne.2
        omega

/-- Replaying a status trajectory over a single-row profile table whose
row is the one the order links to yields one row, with the same id and
with `total_visits` increased by exactly the number of guarded
`'served'` entries. -/
theorem runStatusUpdates_single (o : Order) :
    ∀ (seq : List String) (prev : String) (p : CustomerProfile),
      o.customer_profile_id = some p.id →
      ∃ q : CustomerProfile, runStatusUpdates o prev seq [p] = [q] ∧ q.id = p.id ∧
        q.total_visits = p.total_visits + (servedEntryCount prev seq : ℤ) := by
  intro seq
  induction seq with
  | nil =>
      intro prev p _
      exact ⟨p, rfl, rfl, by simp [servedEntryCount]⟩
  | cons s rest ih =>
      intro prev p hc
      by_cases hfire : s = "served" ∧ prev ≠ "served"
      · have hstep :
            (update_customer_profile_after_order { o with status := prev }
              { o with status := s } [p]).2 =
            [applyOrderToProfile { o with status := s } p] := by
          simp [update_customer_profile_after_order, hfire.1, hfire.2]
        have hbump :
            applyOrderToProfile { o with status := s } p =
            { p with
              total_visits := p.total_visits + 1
              total_spent := p.total_spent + o.total_amount
              loyalty_points := p.loyalty_points + coalesceZ o.loyalty_points_earned
                - coalesceZ o.loyalty_points_used } := by
          simp [applyOrderToProfile, hc]
        obtain ⟨q, hq, hid, hv⟩ := ih s
          { p with
            total_visits := p.total_visits + 1
            total_spent := p.total_spent + o.total_amount
            loyalty_points := p.loyalty_points + coalesceZ o.loyalty_points_earned
              - coalesceZ o.loyalty_points_used } hc
        refine ⟨q, ?_, hid, ?_⟩
        · simp only [runStatusUpdates, hstep, hbump]
          exact hq
        · simp only [servedEntryCount, if_pos hfire]
          simp only [hv]
          push_cast
          ring
      · have hstep :
            (update_customer_profile_after_order { o with status := prev }
              { o with status := s } [p]).2 = [p] := by
          unfold update_customer_profile_after_order
          rw [if_neg (by simpa using hfire)]
        obtain ⟨q, hq, hid, hv⟩ := ih s p hc
        refine ⟨q, ?_, hid, ?_⟩
        · simp only [runStatusUpdates, hstep]
          exact hq
        · simp only [servedEntryCount, if_neg hfire]
          simpa using hv

/-- Claim C3, counterexample: an order whose status is saved as
`'served'`, then `'pending'`, then `'served'` again has the profile
mutation applied twice — the guard only prevents re-firing while the
status stays `'served'`, not over arbitrary sequences. The linked
profile starts at 0 visits and ends at 2. -/
theorem trigger_refires_after_leaving_served :
    (runStatusUpdates ⟨1, 1, some 1, "pending", 10, some 10, some 0⟩ "pending"
        ["served", "pending", "served"] [⟨1, 0, 0, 0⟩]).map
      (fun q => q.total_visits) = [2] := by
  decide

/-- Claim C3 as amended: over any sequence of status updates in which
the order never transitions out of `'served'` once it reaches it, the
trigger's profile mutation is applied at most once in total, so the
linked profile's visit counter grows by at most 1. A sequence that
leaves `'served'` and re-enters it re-applies the mutation. -/
theorem trigger_at_most_once_without_served_exit
    (o : Order) (p : CustomerProfile) (init : String) (seq : List String)
    (hc : o.customer_profile_id = some p.id)
    (hne : noServedExit init seq = true) :
    ∀ q ∈ runStatusUpdates o init seq [p], q.total_visits ≤ p.total_visits + 1 := by
  obtain ⟨q, hq, _, hv⟩ := runStatusUpdates_single o seq init p hc
  intro q2 hq2
  rw [hq, List.mem_singleton] at hq2
  subst hq2
  have hle := servedEntryCount_le_one seq init hne
  omega

/-- Witness for the amended C3: a pending order saved as `'served'` and
then saved as `'served'` again bumps the visit counter at most once; the
single resulting profile row of that replay is the updated row. -/
theorem trigger_at_most_once_without_served_exit_inst :
    (applyOrderToProfile ⟨1, 1, some 1, "served", 10, some 10, some 0⟩
        ⟨1, 0, 0, 0⟩).total_visits ≤ (⟨1, 0, 0, 0⟩ : CustomerProfile).total_visits + 1 :=
  trigger_at_most_once_without_served_exit
    ⟨1, 1, some 1, "pending", 10, some 10, some 0⟩ ⟨1, 0, 0, 0⟩ "pending"
    ["served", "served"] rfl (by decide)
    (applyOrderToProfile ⟨1, 1, some 1, "served", 10, some 10, some 0⟩ ⟨1, 0, 0, 0⟩)
    (by exact List.mem_singleton.mpr rfl)

/-- Claim C4: inserting a restaurant row fires the seeding trigger,
which creates exactly four `staff_roles` rows for that restaurant, named
Manager, Waiter, Chef and Cashier with hourly rates 25.00, 15.00, 20.00
and 14.00, and with the hardcoded descriptions and permission flags of
`create_default_staff_roles`. -/
theorem restaurant_insert_seeds_four_roles
    (rid : ℕ) (db : RestaurantDB)
    (hclean : db.staff_roles.filter (fun sr => sr.restaurant_id == rid) = []) :
    ((insert_restaurant rid db).staff_roles.filter (fun sr => sr.restaurant_id == rid)
        = create_default_staff_roles rid)
    ∧ (create_default_staff_roles rid).length = 4
    ∧ (create_default_staff_roles rid).map (fun sr => sr.name)
        = ["Manager", "Waiter", "Chef", "Cashier"]
    ∧ (create_default_staff_roles rid).map (fun sr => sr.hourly_rate) = [25, 15, 20, 14]
    ∧ (create_default_staff_roles rid).map (fun sr => sr.restaurant_id)
        = [rid, rid, rid, rid] := by
  refine ⟨?_, rfl, rfl, rfl, rfl⟩
  simp [insert_restaurant, List.filter_append, hclean, create_default_staff_roles]

/-- Witness for C4: creating restaurant 1 on an empty database seeds
exactly the four default roles. -/
theorem restaurant_insert_seeds_four_roles_inst :
    ((insert_restaurant 1 ⟨[], []⟩).staff_roles.filter (fun sr => sr.restaurant_id == 1)
        = create_default_staff_roles 1)
    ∧ (create_default_staff_roles 1).length = 4
    ∧ (create_default_staff_roles 1).map (fun sr => sr.name)
        = ["Manager", "Waiter", "Chef", "Cashier"]
    ∧ (create_default_staff_roles 1).map (fun sr => sr.hourly_rate) = [25, 15, 20, 14]
    ∧ (create_default_staff_roles 1).map (fun sr => sr.restaurant_id) = [1, 1, 1, 1] :=
  restaurant_insert_seeds_four_roles 1 ⟨[], []⟩ rfl

/-- Claim C5: for every non-preflight request, both e-mail handlers
answer HTTP 200 with a JSON body whose `success` field is `true`,
whatever combination of internal failures (bad payload, missing
configuration, failed imports, failed signature verification, failed
send, or any other caught error) occurred; no 4xx or 5xx is possible. -/
theorem email_handlers_always_succeed (method : String) (env : EmailEnv)
    (h : method ≠ "OPTIONS") :
    ((SendVerificationEmail.handler method env).status = 200
      ∧ ∃ b : JsonBody, (SendVerificationEmail.handler method env).body = some b
          ∧ b.success = true)
    ∧ ((SendResetEmail.handler method env).status = 200
      ∧ ∃ b : JsonBody, (SendResetEmail.handler method env).body = some b
          ∧ b.success = true) := by
  constructor
  · unfold SendVerificationEmail.handler
    rw [if_neg h]
    split_ifs <;> exact ⟨rfl, ⟨_, rfl, rfl⟩⟩
  · unfold SendResetEmail.handler
    rw [if_neg h]
    split_ifs <;> exact ⟨rfl, ⟨_, rfl, rfl⟩⟩

/-- Witness for C5: a POST with an unparsable payload, no configuration
and a bad signature still gets 200 with `success: true` from both
handlers. -/
theorem email_handlers_always_succeed_inst :
    ((SendVerificationEmail.handler "POST" ⟨none, none, false, false, false, false, false⟩).status = 200
      ∧ ∃ b : JsonBody,
          (SendVerificationEmail.handler "POST" ⟨none, none, false, false, false, false, false⟩).body = some b
          ∧ b.success = true)
    ∧ ((SendResetEmail.handler "POST" ⟨none, none, false, false, false, false, false⟩).status = 200
      ∧ ∃ b : JsonBody,
          (SendResetEmail.handler "POST" ⟨none, none, false, false, false, false, false⟩).body = some b
          ∧ b.success = true) :=
  email_handlers_always_succeed "POST" ⟨none, none, false, false, false, false, false⟩ (by decide)

/-- A backend on which the queried username has no `profiles` row. -/
def beNoUser : AuthBackend :=
  { profileByUsername := fun _ => LookupRes.notFound
    signInWithPassword := fun _ _ => none
    usernameCheck := LookupRes.notFound
    signUpError := none
    resetError := none
    profileById := LookupRes.notFound
    profileInsertError := none
    ensureThrows := false }

/-- A backend on which the username resolves to an e-mail but the
password is wrong, so authentication fails with the platform's
`Invalid login credentials` message. -/
def beWrongPw : AuthBackend :=
  { profileByUsername := fun _ => LookupRes.found (some "a@b.com")
    signInWithPassword := fun _ _ => some "Invalid login credentials"
    usernameCheck := LookupRes.notFound
    signUpError := none
    resetError := none
    profileById := LookupRes.notFound
    profileInsertError := none
    ensureThrows := false }

/-- Claim C6: for a username identifier (no `'@'`), a sign-in against a
backend where the username has no profile row and a sign-in against a
backend where the username exists but the password check fails with any
message matching none of the special substrings return the same generic
invalid-credentials error, so the caller cannot distinguish the two
runs. -/
theorem username_enumeration_indistinguishable
    (u pw em m : String) (be1 be2 : AuthBackend)
    (hu : u.toList.contains '@' = false)
    (h1 : be1.profileByUsername u = LookupRes.notFound)
    (h2 : be2.profileByUsername u = LookupRes.found (some em))
    (h3 : be2.signInWithPassword em pw = some m)
    (h4 : occurs "Email not confirmed" m = false)
    (h5 : occurs "Too many requests" m = false) :
    AuthService.signIn u pw be1 = AuthService.signIn u pw be2
    ∧ AuthService.signIn u pw be1 =
        some ⟨"Invalid username or password. Please check your credentials and try again."⟩ := by
  have hcond : ¬ (u.toList.contains '@' = true) := by rw [hu]; decide
  have hr1 : AuthService.signIn u pw be1 =
      some ⟨"Invalid username or password. Please check your credentials and try again."⟩ := by
    unfold AuthService.signIn
    rw [if_neg hcond]
    simp only [h1]
  have hr2 : AuthService.signIn u pw be2 =
      some ⟨"Invalid username or password. Please check your credentials and try again."⟩ := by
    unfold AuthService.signIn
    rw [if_neg hcond]
    simp only [h2, h3]
    simp [AuthService.mapUsernameLoginError, h4, h5]
  exact ⟨hr1.trans hr2.symm, hr1⟩

/-- Witness for C6 at the concrete username `bob` against the two
concrete backends. -/
theorem username_enumeration_indistinguishable_inst :
    AuthService.signIn "bob" "pw" beNoUser = AuthService.signIn "bob" "pw" beWrongPw
    ∧ AuthService.signIn "bob" "pw" beNoUser =
        some ⟨"Invalid username or password. Please check your credentials and try again."⟩ :=
  username_enumeration_indistinguishable "bob" "pw" "a@b.com" "Invalid login credentials"
    beNoUser beWrongPw (by decide) rfl rfl rfl (by decide) (by decide)

/-- A backend whose every operation fails with the message
`Quota exceeded`, which matches none of the known substrings. -/
def beUnmatched : AuthBackend :=
  { profileByUsername := fun _ => LookupRes.notFound
    signInWithPassword := fun _ _ => some "Quota exceeded"
    usernameCheck := LookupRes.notFound
    signUpError := some "Quota exceeded"
    resetError := some "Quota exceeded"
    profileById := LookupRes.notFound
    profileInsertError := none
    ensureThrows := false }

/-- Claim C9, counterexample: a backend sign-in error whose message
`Quota exceeded` matches none of the known substrings is not returned
raw by `signIn`; it is replaced by the generic invalid-credentials
message. -/
theorem signin_unmatched_error_not_raw :
    AuthService.signIn "a@b.com" "pw" beUnmatched =
      some ⟨"Invalid email or password. Please check your credentials and try again."⟩
    ∧ AuthService.signIn "a@b.com" "pw" beUnmatched ≠ some ⟨"Quota exceeded"⟩ := by
  constructor <;> decide

/-- Claim C9 as amended: every user-facing auth error message is
produced by substring matching on the backend message; an unmatched
message passes through raw in `signUp` and `resetPassword`, while
`signIn` replaces an unmatched message with its fixed generic
invalid-credentials message. -/
theorem auth_error_mapping_amended
    (m em pw : String) (be : AuthBackend)
    (hU : be.usernameCheck = LookupRes.notFound)
    (hSU : be.signUpError = some m)
    (hRE : be.resetError = some m)
    (h1 : occurs "User already registered" m = false)
    (h2 : occurs "Password should be at least" m = false)
    (h3 : occurs "Invalid email" m = false)
    (h4 : occurs "For security purposes" m = false)
    (h5 : occurs "Unable to validate email address" m = false)
    (hE : em.toList.contains '@' = true)
    (hSI : be.signInWithPassword em pw = some m)
    (h6 : occurs "Email not confirmed" m = false)
    (h7 : occurs "Invalid login credentials" m = false)
    (h8 : occurs "Too many requests" m = false) :
    AuthService.signUp be = some ⟨m⟩
    ∧ AuthService.resetPassword be = some ⟨m⟩
    ∧ AuthService.signIn em pw be =
        some ⟨"Invalid email or password. Please check your credentials and try again."⟩ := by
  refine ⟨?_, ?_, ?_⟩
  · simp [AuthService.signUp, AuthService.mapSignUpError, hU, hSU, h1, h2, h3]
  · simp [AuthService.resetPassword, AuthService.mapResetError, hRE, h4, h5]
  · unfold AuthService.signIn
    rw [if_pos hE]
    simp only [hSI]
    simp [AuthService.mapEmailLoginError, h6, h7, h8]

/-- Witness for the amended C9 at the concrete unmatched message
`Quota exceeded`. -/
theorem auth_error_mapping_amended_inst :
    AuthService.signUp beUnmatched = some ⟨"Quota exceeded"⟩
    ∧ AuthService.resetPassword beUnmatched = some ⟨"Quota exceeded"⟩
    ∧ AuthService.signIn "a@b.com" "pw" beUnmatched =
        some ⟨"Invalid email or password. Please check your credentials and try again."⟩ :=
  auth_error_mapping_amended "Quota exceeded" "a@b.com" "pw" beUnmatched rfl rfl rfl
    (by decide) (by decide) (by decide) (by decide) (by decide) (by decide) rfl
    (by decide) (by decide) (by decide)

/-- Claim C10: whenever backend authentication succeeds, `signIn`
returns `{ error: null }`, and its result does not depend on the
outcomes of profile auto-provisioning (the profile fetch, the insert, or
an exception inside `ensureProfileExists`), because `ensureProfileExists`
swallows every error and returns void. -/
theorem signin_independent_of_profile_provisioning
    (identifier pw : String) (be : AuthBackend) :
    (identifier.toList.contains '@' = true →
      be.signInWithPassword identifier pw = none →
      AuthService.signIn identifier pw be = none)
    ∧ (identifier.toList.contains '@' = false → ∀ em,
        be.profileByUsername identifier = LookupRes.found (some em) →
        be.signInWithPassword em pw = none →
        AuthService.signIn identifier pw be = none)
    ∧ (∀ pid : LookupRes, ∀ pie : Option String, ∀ et : Bool,
        AuthService.signIn identifier pw
          { be with profileById := pid, profileInsertError := pie, ensureThrows := et } =
          AuthService.signIn identifier pw be)
    ∧ (∀ be2 : AuthBackend, AuthService.ensureProfileExists be2 = ()) := by
  refine ⟨?_, ?_, ?_, ?_⟩
  · intro h1 h2
    unfold AuthService.signIn
    rw [if_pos h1]
    simp only [h2]
  · intro h1 em h2 h3
    have hcond : ¬ (identifier.toList.contains '@' = true) := by rw [h1]; decide
    unfold AuthService.signIn
    rw [if_neg hcond]
    simp only [h2, h3]
  · intro pid pie et
    rfl
  · intro be2
    rfl

/-- A backend on which authentication succeeds but the profile
auto-provisioning insert fails. -/
def beProvisionFail : AuthBackend :=
  { profileByUsername := fun _ => LookupRes.notFound
    signInWithPassword := fun _ _ => none
    usernameCheck := LookupRes.notFound
    signUpError := none
    resetError := none
    profileById := LookupRes.notFound
    profileInsertError := some "insert denied"
    ensureThrows := false }

/-- Witness for C10: a successful e-mail sign-in on a backend whose
profile insert fails still returns `{ error: null }`. -/
theorem signin_independent_of_profile_provisioning_inst :
    AuthService.signIn "a@b.com" "pw" beProvisionFail = none :=
  (signin_independent_of_profile_provisioning "a@b.com" "pw" beProvisionFail).1
    (by decide) rfl
